import Mathlib

/-!
Verification of the orchestration engine of `ps-top` (`src/app/app.go`)
against its natural-language specification.

The embedding translates `app.go` into Lean: the `App` struct becomes a
Lean structure, its methods become pure state-transforming functions, and
the run loop (`App.Run`) becomes a step function over a list of multiplexed
inputs (signal, timer tick, display input event).  Side effects on the
database/terminal that the spec's claims observe (which collector was
collected or reference-synced, which display call was made) are recorded in
a ghost `trace` field; fields of the collectors that the claims observe
(the relative-stats flag, the wants-latency flag of the ops/latency
collector) are carried in the state.

The `view` package and the `wait_info` package of this repository are not
under `src/`; their behaviour is modelled from the spec (each such
definition is marked `Modelled from the spec:`).  Everything else is a
direct translation of `src/app/app.go`.
-/

/-- Modelled from the spec: the `view` package is not under `src/`. The spec
fixes a seven-member ordered set of views {Latency, Ops, IO, Locks, Users,
Mutex, Stages} with cyclic successor/predecessor and `SetByName` defaulting
to the first view on invalid/empty input. -/
inductive View
  | latency
  | ops
  | io
  | locks
  | users
  | mutex
  | stages
deriving DecidableEq

/-- Index of a view in the fixed ordering of the spec. -/
def View.toIdx : View → Nat
  | .latency => 0
  | .ops => 1
  | .io => 2
  | .locks => 3
  | .users => 4
  | .mutex => 5
  | .stages => 6

/-- Modelled from the spec: `view.View.SetNext` — cyclic successor in the
fixed ordering. -/
def View.next : View → View
  | .latency => .ops
  | .ops => .io
  | .io => .locks
  | .locks => .users
  | .users => .mutex
  | .mutex => .stages
  | .stages => .latency

/-- Modelled from the spec: `view.View.SetPrev` — cyclic predecessor in the
fixed ordering. -/
def View.prev : View → View
  | .latency => .stages
  | .ops => .latency
  | .io => .ops
  | .locks => .io
  | .users => .locks
  | .mutex => .users
  | .stages => .mutex

/-- Modelled from the spec: `view.View.SetByName` picks a view by label and
defaults to the fixed first view (Latency) on invalid or empty input.  The
labels are the view names as the spec writes them. -/
def View.setByName (s : String) : View :=
  match s with
  | "Latency" => .latency
  | "Ops" => .ops
  | "IO" => .io
  | "Locks" => .locks
  | "Users" => .users
  | "Mutex" => .mutex
  | "Stages" => .stages
  | _ => .latency

/-- The six collectors held by the `App` struct (`fsbi`, `tiwsbt`,
`tlwsbt`, `ewsgben`, `essgben`, `users` in `app.go`). -/
inductive CollectorId
  | fsbi
  | tiwsbt
  | tlwsbt
  | ewsgben
  | essgben
  | users
deriving DecidableEq

/-- Ghost trace entries: the externally observable calls the orchestrator
makes on the collectors and the display. -/
inductive PsAction
  | collect (c : CollectorId)
  | sync (c : CollectorId)
  | display
  | displayHelp
deriving DecidableEq

/-- Occurrence count of an element in a list (used on traces). -/
def countOf {α : Type} [DecidableEq α] : List α → α → Nat
  | [], _ => 0
  | a :: t, x => (if a = x then 1 else 0) + countOf t x

/-- The per-collector state the claims observe: the relative-stats flag set
via `SetWantRelativeStats`. -/
structure Collector where
  want_relative_stats : Bool
deriving DecidableEq

/-- `Collector.SetWantRelativeStats`. -/
def Collector.setWantRelativeStats (_c : Collector) (b : Bool) : Collector :=
  { want_relative_stats := b }

/-- One nanosecond-resolution second, as Go's `time.Second` (a
`time.Duration` is an `int64` count of nanoseconds). -/
def second : Int := 1000000000

/-- Modelled from the spec: `wait_info.WaitInfo.SetWaitInterval` is not
under `src/`.  The spec says the wait interval is floor-clamped to a
minimum of one second, with minimum-interval enforcement at the mutation
point. -/
def setWaitIntervalSpec (d : Int) : Int :=
  max second d

/-- The `App` struct of `app.go`, restricted to the fields the claims
observe, plus the ghost `trace`. -/
structure App where
  count : Int
  finished : Bool
  limit : Int
  stdout : Bool
  help : Bool
  fsbi : Collector
  tiwsbt : Collector
  tlwsbt : Collector
  ewsgben : Collector
  essgben : Collector
  users : Collector
  tiwsbt_wants_latency : Bool
  display_want_relative_stats : Bool
  view : View
  want_relative_stats : Bool
  wi_wait_interval : Int
  trace : List PsAction
deriving DecidableEq

/-- The zero `App` value before `Setup` runs. -/
def App.initial : App where
  count := 0
  finished := false
  limit := 0
  stdout := false
  help := false
  fsbi := ⟨false⟩
  tiwsbt := ⟨false⟩
  tlwsbt := ⟨false⟩
  ewsgben := ⟨false⟩
  essgben := ⟨false⟩
  users := ⟨false⟩
  tiwsbt_wants_latency := false
  display_want_relative_stats := false
  view := .latency
  want_relative_stats := false
  wi_wait_interval := 0
  trace := []

/-- Which collector backs a view, as in the `switch app.view.Get()` of
`App.Collect` (`app.go:180-193`): Latency and Ops share `tiwsbt`. -/
def activeCollectorId : View → CollectorId
  | .latency => .tiwsbt
  | .ops => .tiwsbt
  | .io => .fsbi
  | .locks => .tlwsbt
  | .users => .users
  | .mutex => .ewsgben
  | .stages => .essgben

/-- `App.Collect` (`app.go:177-197`): collect only the collector backing
the currently active view. -/
def App.Collect (a : App) : App :=
  { a with trace := a.trace ++ [PsAction.collect (activeCollectorId a.view)] }

/-- `App.Display` (`app.go:219-241`): in help mode show the help screen,
otherwise draw the active view. -/
def App.Display (a : App) : App :=
  if a.help then
    { a with trace := a.trace ++ [PsAction.displayHelp] }
  else
    { a with trace := a.trace ++ [PsAction.display] }

/-- `App.SyncReferenceValues` (`app.go:147-156`): sync the reference values
of `fsbi`, `tlwsbt`, `tiwsbt`, `essgben` and `ewsgben` (the `users`
collector is not synced). -/
def App.SyncReferenceValues (a : App) : App :=
  { a with trace := a.trace ++
      [PsAction.sync .fsbi, PsAction.sync .tlwsbt, PsAction.sync .tiwsbt,
       PsAction.sync .essgben, PsAction.sync .ewsgben] }

/-- `App.ResetDBStatistics` (`app.go:138-145`): collect `fsbi`, `tlwsbt`,
`tiwsbt`, `essgben` and `ewsgben` (the `users` collector is not collected),
then sync reference values. -/
def App.ResetDBStatistics (a : App) : App :=
  App.SyncReferenceValues
    { a with trace := a.trace ++
        [PsAction.collect .fsbi, PsAction.collect .tlwsbt, PsAction.collect .tiwsbt,
         PsAction.collect .essgben, PsAction.collect .ewsgben] }

/-- `App.SetHelp` (`app.go:199-203`). -/
def App.SetHelp (a : App) (newHelp : Bool) : App :=
  { a with help := newHelp }

/-- `App.fix_latency_setting` (`app.go:245-252`): two successive `if`s on
the current view, as in the source. -/
def App.fix_latency_setting (a : App) : App :=
  let a1 := if a.view = View.latency then { a with tiwsbt_wants_latency := true } else a
  if a1.view = View.ops then { a1 with tiwsbt_wants_latency := false } else a1

/-- `App.DisplayPrevious` (`app.go:255-259`). -/
def App.DisplayPrevious (a : App) : App :=
  App.fix_latency_setting { a with view := a.view.prev }

/-- `App.DisplayNext` (`app.go:262-266`). -/
def App.DisplayNext (a : App) : App :=
  App.fix_latency_setting { a with view := a.view.next }

/-- `App.SetWantRelativeStats` (`app.go:274-283`): propagates the flag to
`fsbi`, `tlwsbt`, `tiwsbt`, `ewsgben`, `essgben` and the display — the
`users` collector is not updated here (it only receives the flag during
`Setup`). -/
def App.SetWantRelativeStats (a : App) (b : Bool) : App :=
  { a with
    want_relative_stats := b
    fsbi := a.fsbi.setWantRelativeStats b
    tlwsbt := a.tlwsbt.setWantRelativeStats b
    tiwsbt := a.tiwsbt.setWantRelativeStats b
    ewsgben := a.ewsgben.setWantRelativeStats b
    essgben := a.essgben.setWantRelativeStats b
    display_want_relative_stats := b }

/-- `App.Cleanup` (`app.go:286-292`): close the display, restore the
instrumentation configuration, close the connection.  In the embedding the
claims only observe that it ran, counted by the process model below. -/
def App.Cleanup (a : App) : App :=
  a

/-- Boolean prefix test on character lists. -/
def listIsPre : List Char → List Char → Bool
  | [], _ => true
  | _ :: _, [] => false
  | c :: cs, d :: ds => c = d && listIsPre cs ds

/-- Boolean test for `re_valid_version` (`app.go:36`): the anchored Go
regular expression matching the prefix alternation of engine versions
5.6. / 5.7. / 10.0 / 10.1. -/
def re_valid_version_matches (s : String) : Bool :=
  listIsPre "5.6.".data s.data || listIsPre "5.7.".data s.data ||
  listIsPre "10.0".data s.data || listIsPre "10.1".data s.data

/-- The five required instrumentation tables of
`App.validate_mysql_version` (`app.go:357-363`). -/
def required_tables : List String :=
  ["performance_schema.events_stages_summary_global_by_event_name",
   "performance_schema.events_waits_summary_global_by_event_name",
   "performance_schema.file_summary_by_instance",
   "performance_schema.table_io_waits_summary_by_table",
   "performance_schema.table_lock_waits_summary_by_table"]

/-- The environment the orchestrator queries during `Setup`: the engine's
reported version string and the set of instrumentation tables that are
accessible on the connection. -/
structure Env where
  mysql_version : String
  accessible_tables : List String
deriving DecidableEq

/-- `App.validate_mysql_version` (`app.go:356-390`): the version string
must match `re_valid_version` and each of the five required tables must be
accessible.  `true` means the `error` return was `nil`. -/
def App.validate_mysql_version (env : Env) : Bool :=
  re_valid_version_matches env.mysql_version &&
  required_tables.all (fun t => env.accessible_tables.contains t)

/-- `App.Setup` (`app.go:65-130`), as a pure function of the environment and
the constructor arguments.  Returns `none` when `validate_mysql_version`
fails and `log.Fatal` aborts the process before the run loop can start.
The field updates follow the order of the source: flags and view first,
then validation, then the wait interval, then the relative-stats flag is
set to `true` and propagated to all six collectors (`app.go:99-111`, the
`users` collector included here), then `ResetDBStatistics`, then
`tiwsbt.SetWantsLatency(true)`, then the display metadata including the
display's relative-stats flag. -/
def App.Setup (env : Env) (interval : Int) (count : Int) (stdout : Bool)
    (limit : Int) (default_view : String) : Option App :=
  let a : App :=
    { App.initial with
      count := count
      finished := false
      limit := limit
      stdout := stdout
      help := false
      view := View.setByName default_view }
  if App.validate_mysql_version env then
    let a := { a with wi_wait_interval := setWaitIntervalSpec (second * interval) }
    let a := { a with
      want_relative_stats := true
      fsbi := a.fsbi.setWantRelativeStats true
      tlwsbt := a.tlwsbt.setWantRelativeStats true
      tiwsbt := a.tiwsbt.setWantRelativeStats true
      users := a.users.setWantRelativeStats true
      essgben := a.essgben.setWantRelativeStats true
      ewsgben := a.ewsgben.setWantRelativeStats true }
    let a := a.ResetDBStatistics
    let a := { a with tiwsbt_wants_latency := true }
    let a := { a with display_want_relative_stats := true }
    some a
  else
    none

/-- `App.Setup` with the fatal-abort case defaulted, for concrete scenario
states. -/
def App.setupD (env : Env) (interval : Int) (count : Int) (stdout : Bool)
    (limit : Int) (default_view : String) : App :=
  (App.Setup env interval count stdout limit default_view).getD App.initial

/-- The input-event variants of the `event` package consumed by the run
loop (`app.go:312-341`). -/
inductive Event
  | finished
  | viewNext
  | viewPrev
  | decreasePollTime
  | increasePollTime
  | help
  | toggleWantRelative
  | resetStatistics
  | resizeScreen (width height : Int)
  | error
deriving DecidableEq

/-- One arrival of the three-way multiplexed `select` of `App.Run`
(`app.go:303-342`): a termination signal, a scheduler tick, or a display
input event. -/
inductive Input
  | signal
  | tick
  | input (e : Event)
deriving DecidableEq

/-- Result of one loop iteration: the next state, or a `log.Fatal` process
abort (the `EventError` arm, `app.go:339-341`). -/
inductive StepResult
  | ok (a : App)
  | fatal (a : App)
deriving DecidableEq

/-- The run-budget hook at the bottom of the loop body (`app.go:343-349`):
only in stdout mode and only while the counter is positive, decrement it
and finish when it reaches zero. -/
def App.budgetHook (a : App) : App :=
  if a.stdout = true ∧ 0 < a.count then
    let a1 := { a with count := a.count - 1 }
    if a1.count = 0 then { a1 with finished := true } else a1
  else
    a

/-- The input-event arm of the `select` (`app.go:311-341`). -/
def App.handleEvent (a : App) (e : Event) : StepResult :=
  match e with
  | .finished => .ok { a with finished := true }
  | .viewNext => .ok (App.Display a.DisplayNext)
  | .viewPrev => .ok (App.Display a.DisplayPrevious)
  | .decreasePollTime =>
      .ok (if second < a.wi_wait_interval then
             { a with wi_wait_interval := setWaitIntervalSpec (a.wi_wait_interval - second) }
           else a)
  | .increasePollTime =>
      .ok { a with wi_wait_interval := setWaitIntervalSpec (a.wi_wait_interval + second) }
  | .help => .ok (a.SetHelp (!a.help))
  | .toggleWantRelative => .ok (App.Display (a.SetWantRelativeStats (!a.want_relative_stats)))
  | .resetStatistics => .ok (App.Display a.ResetDBStatistics)
  | .resizeScreen _ _ => .ok (App.Display a)
  | .error => .fatal a

/-- One full iteration of the run loop body (`app.go:304-349`): the
three-way `select`, then the run-budget hook.  `log.Fatal` on `EventError`
aborts before the hook. -/
def App.runStep (a : App) (i : Input) : StepResult :=
  match i with
  | .signal => .ok (App.budgetHook { a with finished := true })
  | .tick => .ok (App.budgetHook (App.Display a.Collect))
  | .input e =>
      match a.handleEvent e with
      | .ok a1 => .ok a1.budgetHook
      | .fatal a1 => .fatal a1

/-- Outcome of running the loop on a finite list of multiplexed arrivals:
the loop exited its `for !app.Finished()` condition (`normal`), the process
was aborted by `log.Fatal` (`fatal`), or the arrivals ran out while the
loop was still blocked waiting (`starved`). -/
inductive RunOutcome
  | normal (a : App)
  | fatal (a : App)
  | starved (a : App)
deriving DecidableEq

/-- `App.Run` (`app.go:295-351`) on a finite list of multiplexed arrivals. -/
def App.runFrom : App → List Input → RunOutcome
  | a, [] => if a.finished then .normal a else .starved a
  | a, i :: is =>
      if a.finished then .normal a
      else
        match a.runStep i with
        | .ok a1 => a1.runFrom is
        | .fatal a1 => .fatal a1

/-- Process outcome: how the process exited and how many times
`App.Cleanup` ran on the way out. -/
inductive ProcOutcome
  | clean (a : App) (cleanups : Nat)
  | fatalExit (cleanups : Nat)
  | blocked (a : App)
deriving DecidableEq

/-- Number of `Cleanup` runs of a process outcome. -/
def ProcOutcome.cleanups : ProcOutcome → Nat
  | .clean _ n => n
  | .fatalExit n => n
  | .blocked _ => 0

/-- Modelled from the spec: the program's entry point is not under `src/`.
Per the spec's lifecycle (Setup → Run → Cleanup) the caller runs
`App.Cleanup` after `App.Run` returns.  A `log.Fatal` inside `Setup`
(version-gate failure) or inside `Run` (the `EventError` arm) terminates
the process immediately via Go's `os.Exit`, which bypasses the caller's
scope, so no `Cleanup` runs on those paths. -/
def pstopMain (env : Env) (interval : Int) (count : Int) (stdout : Bool)
    (limit : Int) (default_view : String) (inputs : List Input) : ProcOutcome :=
  match App.Setup env interval count stdout limit default_view with
  | none => .fatalExit 0
  | some a =>
      match a.runFrom inputs with
      | .normal a1 => .clean a1.Cleanup 1
      | .fatal _ => .fatalExit 0
      | .starved a1 => .blocked a1

/-- A concrete environment on which `Setup` succeeds: a valid engine
version and all five required tables accessible. -/
def goodEnv : Env :=
  { mysql_version := "5.7.21-log", accessible_tables := required_tables }

/-- The state reached from a loop iteration, with a fatal abort collapsed
to its state (used only to fold concrete event sequences). -/
def App.stepOkD (a : App) (i : Input) : App :=
  match a.runStep i with
  | .ok a1 => a1
  | .fatal a1 => a1

/-- The exact action sequence `App.ResetDBStatistics` appends: the five
collects of `app.go:139-143` followed by the five reference syncs of
`app.go:149-153`. -/
def resetTrace : List PsAction :=
  [PsAction.collect .fsbi, PsAction.collect .tlwsbt, PsAction.collect .tiwsbt,
   PsAction.collect .essgben, PsAction.collect .ewsgben,
   PsAction.sync .fsbi, PsAction.sync .tlwsbt, PsAction.sync .tiwsbt,
   PsAction.sync .essgben, PsAction.sync .ewsgben]

/-- A view-change operation of the run loop: `EventViewNext` or
`EventViewPrev`. -/
inductive VOp
  | next
  | prev
deriving DecidableEq

/-- Apply a sequence of view-change operations to a view. -/
def View.applyOps : View → List VOp → View
  | v, [] => v
  | v, VOp.next :: rest => View.applyOps v.next rest
  | v, VOp.prev :: rest => View.applyOps v.prev rest

/-- The final state of a normally exited run, if any. -/
def runOutcomeApp : RunOutcome → Option App
  | .normal a => some a
  | .fatal _ => none
  | .starved _ => none

/-- The actions appended by `k` consecutive tick iterations at a fixed
view: one collect of the active collector and one display per tick. -/
def tickTrace (v : View) : Nat → List PsAction
  | 0 => []
  | k + 1 => PsAction.collect (activeCollectorId v) :: PsAction.display :: tickTrace v k

/-- `countOf` distributes over list append. -/
theorem countOf_append {α : Type} [DecidableEq α] (l1 l2 : List α) (x : α) :
    countOf (l1 ++ l2) x = countOf l1 x + countOf l2 x := by
  induction l1 with
  | nil => simp [countOf]
  | cons a t ih => simp [countOf, ih]; omega

/-- The run-budget hook never changes the wait interval. -/
theorem budgetHook_wi (a : App) :
    (a.budgetHook).wi_wait_interval = a.wi_wait_interval := by
  unfold App.budgetHook
  split
  · dsimp only
    split <;> rfl
  · rfl

/-- `fix_latency_setting` only ever changes the wants-latency flag. -/
theorem fix_latency_wi (a : App) :
    (a.fix_latency_setting).wi_wait_interval = a.wi_wait_interval := by
  simp only [App.fix_latency_setting]
  split <;> split <;> rfl

/-- A finished loop exits at the top of the `for` without consuming any
further arrival. -/
theorem runFrom_finished (a : App) (l : List Input) (h : a.finished = true) :
    a.runFrom l = RunOutcome.normal a := by
  cases l <;> simp [App.runFrom, h]

/-- C1: counterexample.  The claim says a call to
`App.SetWantRelativeStats(b)` leaves every one of the six collectors — the
users/processlist collector included — holding the identical boolean `b`.
On the state `Setup` produces (every collector `true`), calling
`SetWantRelativeStats false` leaves the `users` collector holding `true`
while `fsbi` holds `false`: a partial update, because `app.go:274-283`
never touches `app.users`. -/
theorem C1_counterexample :
    ((App.setupD goodEnv 1 0 false 5 "IO").SetWantRelativeStats false).users.want_relative_stats ≠
      ((App.setupD goodEnv 1 0 false 5 "IO").SetWantRelativeStats false).fsbi.want_relative_stats := by
  decide

/-- C1 (amended): `App.SetWantRelativeStats(b)` atomically sets the five
performance-schema collectors (`fsbi`, `tlwsbt`, `tiwsbt`, `ewsgben`,
`essgben`), the renderer and the orchestrator's own flag to `b`, and leaves
the `users` collector unchanged; `Setup` is the only point that sets the
`users` collector's flag, and it sets all six collectors and the renderer
to `true`. -/
theorem C1_amended :
    (∀ (a : App) (b : Bool),
      (a.SetWantRelativeStats b).fsbi.want_relative_stats = b ∧
      (a.SetWantRelativeStats b).tlwsbt.want_relative_stats = b ∧
      (a.SetWantRelativeStats b).tiwsbt.want_relative_stats = b ∧
      (a.SetWantRelativeStats b).ewsgben.want_relative_stats = b ∧
      (a.SetWantRelativeStats b).essgben.want_relative_stats = b ∧
      (a.SetWantRelativeStats b).display_want_relative_stats = b ∧
      (a.SetWantRelativeStats b).want_relative_stats = b ∧
      (a.SetWantRelativeStats b).users = a.users) ∧
    (∀ (env : Env) (i c : Int) (s : Bool) (l : Int) (v : String) (a : App),
      App.Setup env i c s l v = some a →
      a.fsbi.want_relative_stats = true ∧
      a.tlwsbt.want_relative_stats = true ∧
      a.tiwsbt.want_relative_stats = true ∧
      a.ewsgben.want_relative_stats = true ∧
      a.essgben.want_relative_stats = true ∧
      a.users.want_relative_stats = true ∧
      a.display_want_relative_stats = true) := by
  constructor
  · intro a b
    simp [App.SetWantRelativeStats, Collector.setWantRelativeStats]
  · intro env i c s l v a h
    unfold App.Setup at h
    split at h
    · simp only [Option.some.injEq] at h
      subst h
      simp [App.ResetDBStatistics, App.SyncReferenceValues, Collector.setWantRelativeStats]
    · exact absurd h (by simp)

/-- C1 witness: the `Setup` conjunct of `C1_amended` applied at a concrete
environment and argument list. -/
theorem C1_witness :
    (App.setupD goodEnv 1 0 false 5 "IO").users.want_relative_stats = true :=
  (C1_amended.2 goodEnv 1 0 false 5 "IO" (App.setupD goodEnv 1 0 false 5 "IO")
      (by decide)).2.2.2.2.2.1

/-- C2: counterexample.  The claim says `ResetDBStatistics()` calls
`Collect` on every one of the six collectors, the users/processlist
collector included.  On a concrete post-`Setup` state, `ResetDBStatistics`
does not add a collect of the `users` collector to the trace:
`app.go:138-145` collects and syncs only the five performance-schema
collectors. -/
theorem C2_counterexample :
    countOf ((App.setupD goodEnv 1 0 false 5 "Locks").ResetDBStatistics).trace
        (PsAction.collect CollectorId.users) ≠
      countOf (App.setupD goodEnv 1 0 false 5 "Locks").trace
        (PsAction.collect CollectorId.users) + 1 := by
  decide

/-- C2 (amended): `ResetDBStatistics` first calls `Collect` on each of the
five performance-schema collectors (`fsbi`, `tlwsbt`, `tiwsbt`, `essgben`,
`ewsgben` — the `users` collector is not collected), and then calls
`SyncReferenceValues` on the same five collectors (the `users` collector is
not synced); this same five-collector pass is performed during `Setup`
before the run loop starts. -/
theorem C2_amended :
    (∀ a : App, (a.ResetDBStatistics).trace = a.trace ++ resetTrace) ∧
    (∀ (env : Env) (i c : Int) (s : Bool) (l : Int) (v : String) (a : App),
      App.Setup env i c s l v = some a → a.trace = resetTrace) := by
  constructor
  · intro a
    simp [App.ResetDBStatistics, App.SyncReferenceValues, resetTrace]
  · intro env i c s l v a h
    unfold App.Setup at h
    split at h
    · simp only [Option.some.injEq] at h
      subst h
      simp [App.ResetDBStatistics, App.SyncReferenceValues, resetTrace, App.initial]
    · exact absurd h (by simp)

/-- C2 witness: the `Setup` conjunct of `C2_amended` applied at a concrete
environment and argument list. -/
theorem C2_witness :
    (App.setupD goodEnv 1 0 false 5 "Locks").trace = resetTrace :=
  C2_amended.2 goodEnv 1 0 false 5 "Locks" (App.setupD goodEnv 1 0 false 5 "Locks")
    (by decide)

/-- C9: after every view transition via `DisplayNext` or `DisplayPrevious`,
if the resulting active view is Latency then the ops/latency collector's
wants-latency flag is `true`, if it is Ops the flag is `false`, and a
transition to any other view leaves the flag unchanged
(`App.fix_latency_setting`, `app.go:245-252`, invoked from
`app.go:255-266`). -/
theorem C9_latency_flag (a : App) :
    (((a.DisplayNext).view = View.latency → (a.DisplayNext).tiwsbt_wants_latency = true) ∧
     ((a.DisplayNext).view = View.ops → (a.DisplayNext).tiwsbt_wants_latency = false) ∧
     ((a.DisplayNext).view ≠ View.latency → (a.DisplayNext).view ≠ View.ops →
       (a.DisplayNext).tiwsbt_wants_latency = a.tiwsbt_wants_latency)) ∧
    (((a.DisplayPrevious).view = View.latency → (a.DisplayPrevious).tiwsbt_wants_latency = true) ∧
     ((a.DisplayPrevious).view = View.ops → (a.DisplayPrevious).tiwsbt_wants_latency = false) ∧
     ((a.DisplayPrevious).view ≠ View.latency → (a.DisplayPrevious).view ≠ View.ops →
       (a.DisplayPrevious).tiwsbt_wants_latency = a.tiwsbt_wants_latency)) := by
  cases hv : a.view <;>
    simp [App.DisplayNext, App.DisplayPrevious, App.fix_latency_setting, View.next, View.prev, hv]

/-- C9 witness: `C9_latency_flag` at a concrete state whose next view is
neither Latency nor Ops, discharging the flag-unchanged hypotheses. -/
theorem C9_witness :
    ((App.setupD goodEnv 1 0 false 5 "IO").DisplayNext).tiwsbt_wants_latency =
      (App.setupD goodEnv 1 0 false 5 "IO").tiwsbt_wants_latency :=
  (C9_latency_flag (App.setupD goodEnv 1 0 false 5 "IO")).1.2.2 (by decide) (by decide)

/-- C6: the version gate.  With the five required tables accessible,
`validate_mysql_version` succeeds exactly when the engine version string
matches `re_valid_version` = `^(5\.[67]\.|10\.[01])`; the four example
versions of the claim are accepted, the two rejected; and whenever the
version string does not match, `Setup` aborts (returns `none`,
`log.Fatal`) before the run loop can start. -/
theorem C6_version_gate :
    (∀ env : Env,
      required_tables.all (fun t => env.accessible_tables.contains t) = true →
      (App.validate_mysql_version env = true ↔
        re_valid_version_matches env.mysql_version = true)) ∧
    re_valid_version_matches "5.7.21-log" = true ∧
    re_valid_version_matches "5.6.40" = true ∧
    re_valid_version_matches "10.0.38-MariaDB" = true ∧
    re_valid_version_matches "10.1.2" = true ∧
    re_valid_version_matches "5.5.50" = false ∧
    re_valid_version_matches "8.0.1" = false ∧
    (∀ (env : Env) (i c : Int) (s : Bool) (l : Int) (v : String),
      re_valid_version_matches env.mysql_version = false →
      App.Setup env i c s l v = none) := by
  refine ⟨?_, by decide, by decide, by decide, by decide, by decide, by decide, ?_⟩
  · intro env h
    unfold App.validate_mysql_version
    rw [h, Bool.and_true]
  · intro env i c s l v h
    unfold App.Setup
    have : App.validate_mysql_version env = false := by
      simp [App.validate_mysql_version, h]
    simp [this]

/-- C6 witness: `C6_version_gate` at the concrete accepting environment and
at a concrete rejected version. -/
theorem C6_witness :
    (App.validate_mysql_version goodEnv = true ↔
      re_valid_version_matches goodEnv.mysql_version = true) ∧
    App.Setup { mysql_version := "8.0.1", accessible_tables := required_tables }
      1 0 false 5 "IO" = none :=
  ⟨C6_version_gate.1 goodEnv (by decide),
   C6_version_gate.2.2.2.2.2.2.2
     { mysql_version := "8.0.1", accessible_tables := required_tables }
     1 0 false 5 "IO" (by decide)⟩

/-- C5: for every initial view and every sequence of `Next`/`Prev`
operations, the resulting view sits at the cyclic offset
(#next − #prev mod 7) in the fixed seven-member ordering (each `Prev`
contributes +6 ≡ −1 mod 7); `Prev` from the first view (Latency) yields
the last (Stages) and `Next` from the last yields the first.  Exactly one
view is active after every operation because the state is a single `View`
value. -/
theorem C5_cyclic_views :
    (∀ (v : View) (ops : List VOp),
      (View.applyOps v ops).toIdx =
        (v.toIdx + countOf ops VOp.next + 6 * countOf ops VOp.prev) % 7) ∧
    View.prev View.latency = View.stages ∧
    View.next View.stages = View.latency := by
  refine ⟨?_, rfl, rfl⟩
  have hnext : ∀ v : View, (View.next v).toIdx = (v.toIdx + 1) % 7 := by
    intro v; cases v <;> rfl
  have hprev : ∀ v : View, (View.prev v).toIdx = (v.toIdx + 6) % 7 := by
    intro v; cases v <;> rfl
  have hlt : ∀ v : View, v.toIdx < 7 := by
    intro v; cases v <;> simp [View.toIdx]
  intro v ops
  induction ops generalizing v with
  | nil =>
    have := hlt v
    simp only [View.applyOps, countOf]
    omega
  | cons op rest ih =>
    cases op with
    | next =>
      have h1 : View.applyOps v (VOp.next :: rest) = View.applyOps v.next rest := rfl
      have h2 : countOf (VOp.next :: rest) VOp.next = 1 + countOf rest VOp.next := by
        simp [countOf]
      have h3 : countOf (VOp.next :: rest) VOp.prev = countOf rest VOp.prev := by
        simp [countOf]
      rw [h1, h2, h3, ih, hnext]
      have := hlt v
      omega
    | prev =>
      have h1 : View.applyOps v (VOp.prev :: rest) = View.applyOps v.prev rest := rfl
      have h2 : countOf (VOp.prev :: rest) VOp.prev = 1 + countOf rest VOp.prev := by
        simp [countOf]
      have h3 : countOf (VOp.prev :: rest) VOp.next = countOf rest VOp.next := by
        simp [countOf]
      rw [h1, h2, h3, ih, hprev]
      have := hlt v
      omega

/-- `Display` never changes the wait interval. -/
theorem Display_wi (a : App) :
    (a.Display).wi_wait_interval = a.wi_wait_interval := by
  unfold App.Display
  split <;> rfl

/-- C4 (spec-modelled `SetWaitInterval`): the wait interval is at least one
second at every observable point: after `Setup` with any non-negative
initial interval, across every non-fatal loop iteration, a
`EventDecreasePollTime` at exactly one second is a no-op
(`app.go:321-324`), five consecutive decreases from 1s leave exactly 1s,
and two consecutive increases from 1s yield exactly 3s. -/
theorem C4_interval_floor :
    (∀ (env : Env) (i c : Int) (s : Bool) (l : Int) (v : String) (a : App),
      0 ≤ i → App.Setup env i c s l v = some a → second ≤ a.wi_wait_interval) ∧
    (∀ (a a1 : App) (inp : Input), second ≤ a.wi_wait_interval →
      a.runStep inp = StepResult.ok a1 → second ≤ a1.wi_wait_interval) ∧
    (∀ a : App, a.wi_wait_interval = second →
      a.handleEvent Event.decreasePollTime = StepResult.ok a) ∧
    (List.foldl App.stepOkD (App.setupD goodEnv 1 0 false 5 "IO")
      (List.replicate 5 (Input.input Event.decreasePollTime))).wi_wait_interval = second ∧
    (List.foldl App.stepOkD (App.setupD goodEnv 1 0 false 5 "IO")
      (List.replicate 2 (Input.input Event.increasePollTime))).wi_wait_interval =
      3 * second := by
  refine ⟨?_, ?_, ?_, by decide, by decide⟩
  · intro env i c s l v a _ h
    unfold App.Setup at h
    split at h
    · simp only [Option.some.injEq] at h
      subst h
      exact le_max_left _ _
    · exact absurd h (by simp)
  · intro a a1 inp hwi h
    cases inp with
    | signal =>
      simp only [App.runStep] at h
      injection h with h
      subst h
      rw [budgetHook_wi]
      exact hwi
    | tick =>
      simp only [App.runStep] at h
      injection h with h
      subst h
      rw [budgetHook_wi, Display_wi]
      exact hwi
    | input e =>
      simp only [App.runStep] at h
      cases e <;> simp only [App.handleEvent] at h
      case finished =>
        injection h with h
        subst h
        rw [budgetHook_wi]
        exact hwi
      case viewNext =>
        injection h with h
        subst h
        rw [budgetHook_wi, Display_wi]
        unfold App.DisplayNext
        rw [fix_latency_wi]
        exact hwi
      case viewPrev =>
        injection h with h
        subst h
        rw [budgetHook_wi, Display_wi]
        unfold App.DisplayPrevious
        rw [fix_latency_wi]
        exact hwi
      case decreasePollTime =>
        injection h with h
        subst h
        rw [budgetHook_wi]
        split
        · exact le_max_left _ _
        · exact hwi
      case increasePollTime =>
        injection h with h
        subst h
        rw [budgetHook_wi]
        exact le_max_left _ _
      case help =>
        injection h with h
        subst h
        rw [budgetHook_wi]
        exact hwi
      case toggleWantRelative =>
        injection h with h
        subst h
        rw [budgetHook_wi, Display_wi]
        exact hwi
      case resetStatistics =>
        injection h with h
        subst h
        rw [budgetHook_wi, Display_wi]
        exact hwi
      case resizeScreen =>
        injection h with h
        subst h
        rw [budgetHook_wi, Display_wi]
        exact hwi
      case error =>
        exact absurd h (by simp)
  · intro a hwi
    simp only [App.handleEvent, hwi]
    rw [if_neg (lt_irrefl second)]

/-- C4 witness: `C4_interval_floor` at a concrete `Setup` and at a concrete
state whose interval is exactly one second. -/
theorem C4_witness :
    second ≤ (App.setupD goodEnv 1 0 false 5 "IO").wi_wait_interval ∧
    (App.setupD goodEnv 1 0 false 5 "IO").handleEvent Event.decreasePollTime =
      StepResult.ok (App.setupD goodEnv 1 0 false 5 "IO") :=
  ⟨C4_interval_floor.1 goodEnv 1 0 false 5 "IO" (App.setupD goodEnv 1 0 false 5 "IO")
      (by decide) (by decide),
   C4_interval_floor.2.2.1 (App.setupD goodEnv 1 0 false 5 "IO") (by decide)⟩

/-- The run-budget hook is the identity when not in stdout mode
(`app.go:344`: the decrement is guarded by `app.stdout`). -/
theorem budgetHook_not_stdout (a : App) (h : a.stdout = false) :
    a.budgetHook = a := by
  unfold App.budgetHook
  rw [if_neg]
  simp [h]

@[simp] theorem Collect_count (a : App) : (a.Collect).count = a.count := rfl

@[simp] theorem Collect_finished (a : App) : (a.Collect).finished = a.finished := rfl

@[simp] theorem Collect_stdout (a : App) : (a.Collect).stdout = a.stdout := rfl

@[simp] theorem Collect_help (a : App) : (a.Collect).help = a.help := rfl

@[simp] theorem Collect_view (a : App) : (a.Collect).view = a.view := rfl

@[simp] theorem Display_count (a : App) : (a.Display).count = a.count := by
  unfold App.Display
  split <;> rfl

@[simp] theorem Display_finished (a : App) : (a.Display).finished = a.finished := by
  unfold App.Display
  split <;> rfl

@[simp] theorem Display_stdout (a : App) : (a.Display).stdout = a.stdout := by
  unfold App.Display
  split <;> rfl

@[simp] theorem Display_help (a : App) : (a.Display).help = a.help := by
  unfold App.Display
  split <;> rfl

@[simp] theorem Display_view (a : App) : (a.Display).view = a.view := by
  unfold App.Display
  split <;> rfl

@[simp] theorem fix_latency_count (a : App) :
    (a.fix_latency_setting).count = a.count := by
  simp only [App.fix_latency_setting]
  split <;> split <;> rfl

@[simp] theorem fix_latency_finished (a : App) :
    (a.fix_latency_setting).finished = a.finished := by
  simp only [App.fix_latency_setting]
  split <;> split <;> rfl

@[simp] theorem fix_latency_stdout (a : App) :
    (a.fix_latency_setting).stdout = a.stdout := by
  simp only [App.fix_latency_setting]
  split <;> split <;> rfl

@[simp] theorem fix_latency_help (a : App) :
    (a.fix_latency_setting).help = a.help := by
  simp only [App.fix_latency_setting]
  split <;> split <;> rfl

@[simp] theorem DisplayNext_count (a : App) : (a.DisplayNext).count = a.count := by
  unfold App.DisplayNext
  simp

@[simp] theorem DisplayNext_finished (a : App) :
    (a.DisplayNext).finished = a.finished := by
  unfold App.DisplayNext
  simp

@[simp] theorem DisplayNext_stdout (a : App) : (a.DisplayNext).stdout = a.stdout := by
  unfold App.DisplayNext
  simp

@[simp] theorem DisplayPrevious_count (a : App) :
    (a.DisplayPrevious).count = a.count := by
  unfold App.DisplayPrevious
  simp

@[simp] theorem DisplayPrevious_finished (a : App) :
    (a.DisplayPrevious).finished = a.finished := by
  unfold App.DisplayPrevious
  simp

@[simp] theorem DisplayPrevious_stdout (a : App) :
    (a.DisplayPrevious).stdout = a.stdout := by
  unfold App.DisplayPrevious
  simp

@[simp] theorem SetWantRelativeStats_count (a : App) (b : Bool) :
    (a.SetWantRelativeStats b).count = a.count := rfl

@[simp] theorem SetWantRelativeStats_finished (a : App) (b : Bool) :
    (a.SetWantRelativeStats b).finished = a.finished := rfl

@[simp] theorem SetWantRelativeStats_stdout (a : App) (b : Bool) :
    (a.SetWantRelativeStats b).stdout = a.stdout := rfl

@[simp] theorem ResetDBStatistics_count (a : App) :
    (a.ResetDBStatistics).count = a.count := rfl

@[simp] theorem ResetDBStatistics_finished (a : App) :
    (a.ResetDBStatistics).finished = a.finished := rfl

@[simp] theorem ResetDBStatistics_stdout (a : App) :
    (a.ResetDBStatistics).stdout = a.stdout := rfl

@[simp] theorem SetHelp_count (a : App) (b : Bool) : (a.SetHelp b).count = a.count := rfl

@[simp] theorem SetHelp_finished (a : App) (b : Bool) :
    (a.SetHelp b).finished = a.finished := rfl

@[simp] theorem SetHelp_stdout (a : App) (b : Bool) :
    (a.SetHelp b).stdout = a.stdout := rfl

/-- C10: with the headless/stdout flag false, no loop iteration ever
changes the run-budget counter, and an iteration can newly set the
finished flag only on a termination signal or an `EventFinished` arrival;
the only fatal abort of the loop is the `EventError` arm
(`app.go:339-349`). -/
theorem C10_interactive_no_budget :
    (∀ (a a1 : App) (inp : Input), a.stdout = false →
      a.runStep inp = StepResult.ok a1 →
      a1.count = a.count ∧
      (a1.finished = true →
        a.finished = true ∨ inp = Input.signal ∨ inp = Input.input Event.finished)) ∧
    (∀ (a a1 : App) (inp : Input),
      a.runStep inp = StepResult.fatal a1 → inp = Input.input Event.error) := by
  constructor
  · intro a a1 inp hs h
    cases inp with
    | signal =>
      simp only [App.runStep] at h
      injection h with h
      subst h
      rw [budgetHook_not_stdout _ (by simp [hs])]
      exact ⟨rfl, fun _ => Or.inr (Or.inl rfl)⟩
    | tick =>
      simp only [App.runStep] at h
      injection h with h
      subst h
      rw [budgetHook_not_stdout _ (by simp [hs])]
      refine ⟨by simp, fun hf => Or.inl ?_⟩
      simpa using hf
    | input e =>
      simp only [App.runStep] at h
      cases e <;> simp only [App.handleEvent] at h
      case finished =>
        injection h with h
        subst h
        rw [budgetHook_not_stdout _ (by simp [hs])]
        exact ⟨rfl, fun _ => Or.inr (Or.inr rfl)⟩
      case viewNext =>
        injection h with h
        subst h
        rw [budgetHook_not_stdout _ (by simp [hs])]
        refine ⟨by simp, fun hf => Or.inl ?_⟩
        simpa using hf
      case viewPrev =>
        injection h with h
        subst h
        rw [budgetHook_not_stdout _ (by simp [hs])]
        refine ⟨by simp, fun hf => Or.inl ?_⟩
        simpa using hf
      case decreasePollTime =>
        injection h with h
        subst h
        rw [budgetHook_not_stdout _ (by split <;> exact hs)]
        refine ⟨by split <;> rfl, fun hf => Or.inl ?_⟩
        revert hf
        split <;> exact fun hf => hf
      case increasePollTime =>
        injection h with h
        subst h
        rw [budgetHook_not_stdout _ (by simp [hs])]
        exact ⟨rfl, fun hf => Or.inl hf⟩
      case help =>
        injection h with h
        subst h
        rw [budgetHook_not_stdout _ (by simp [hs])]
        exact ⟨rfl, fun hf => Or.inl hf⟩
      case toggleWantRelative =>
        injection h with h
        subst h
        rw [budgetHook_not_stdout _ (by simp [hs])]
        refine ⟨by simp, fun hf => Or.inl ?_⟩
        simpa using hf
      case resetStatistics =>
        injection h with h
        subst h
        rw [budgetHook_not_stdout _ (by simp [hs])]
        refine ⟨by simp, fun hf => Or.inl ?_⟩
        simpa using hf
      case resizeScreen w ht =>
        injection h with h
        subst h
        rw [budgetHook_not_stdout _ (by simp [hs])]
        refine ⟨by simp, fun hf => Or.inl ?_⟩
        simpa using hf
      case error =>
        exact absurd h (by simp)
  · intro a a1 inp h
    cases inp with
    | signal => exact absurd h (by simp [App.runStep])
    | tick => exact absurd h (by simp [App.runStep])
    | input e =>
      simp only [App.runStep] at h
      cases e <;> simp only [App.handleEvent] at h
      case error => rfl
      all_goals exact absurd h (by simp)

/-- C10 witness: `C10_interactive_no_budget` at a concrete interactive
state and a tick, and at the `EventError` arrival. -/
theorem C10_witness :
    ((App.stepOkD (App.setupD goodEnv 1 7 false 5 "IO") Input.tick).count =
      (App.setupD goodEnv 1 7 false 5 "IO").count) ∧
    Input.input Event.error = Input.input Event.error :=
  ⟨(C10_interactive_no_budget.1 (App.setupD goodEnv 1 7 false 5 "IO")
      (App.stepOkD (App.setupD goodEnv 1 7 false 5 "IO") Input.tick) Input.tick
      (by decide) (by decide)).1,
   C10_interactive_no_budget.2 (App.setupD goodEnv 1 7 false 5 "IO")
      (App.setupD goodEnv 1 7 false 5 "IO") (Input.input Event.error) (by decide)⟩

/-- C8: counterexample.  The claim says Cleanup runs exactly once on every
exit path including the fatal `EventError` path.  In a run that receives an
`EventError`, `log.Fatalf` (`app.go:340`) terminates the process via Go's
`os.Exit`, so the process exits with zero `Cleanup` runs, not one. -/
theorem C8_counterexample :
    (pstopMain goodEnv 1 0 false 5 "IO" [Input.input Event.error]).cleanups ≠ 1 := by
  decide

/-- C8 (amended): `Cleanup` runs exactly once when the run loop returns
normally (normal finish or signal-triggered shutdown); on a fatal abort —
the `EventError` arm of the loop or a `Setup` validation failure —
`log.Fatal` exits the process immediately and `Cleanup` never runs. -/
theorem C8_amended :
    (∀ (env : Env) (i c : Int) (s : Bool) (l : Int) (v : String)
        (inputs : List Input) (a aF : App),
      App.Setup env i c s l v = some a →
      a.runFrom inputs = RunOutcome.normal aF →
      (pstopMain env i c s l v inputs).cleanups = 1) ∧
    (∀ (env : Env) (i c : Int) (s : Bool) (l : Int) (v : String)
        (inputs : List Input) (a aF : App),
      App.Setup env i c s l v = some a →
      a.runFrom inputs = RunOutcome.fatal aF →
      (pstopMain env i c s l v inputs).cleanups = 0) ∧
    (∀ (env : Env) (i c : Int) (s : Bool) (l : Int) (v : String)
        (inputs : List Input),
      App.Setup env i c s l v = none →
      (pstopMain env i c s l v inputs).cleanups = 0) := by
  refine ⟨?_, ?_, ?_⟩
  · intro env i c s l v inputs a aF hset hrun
    unfold pstopMain
    rw [hset]
    dsimp only
    rw [hrun]
    rfl
  · intro env i c s l v inputs a aF hset hrun
    unfold pstopMain
    rw [hset]
    dsimp only
    rw [hrun]
    rfl
  · intro env i c s l v inputs hset
    unfold pstopMain
    rw [hset]
    rfl

/-- C8 witness: `C8_amended` on a concrete normal finish (an
`EventFinished` arrival), a concrete fatal run (an `EventError` arrival),
and a concrete `Setup` rejection. -/
theorem C8_witness :
    (pstopMain goodEnv 1 0 false 5 "IO" [Input.input Event.finished]).cleanups = 1 ∧
    (pstopMain goodEnv 1 0 false 5 "IO" [Input.input Event.error]).cleanups = 0 ∧
    (pstopMain { mysql_version := "8.0.1", accessible_tables := required_tables }
      1 0 false 5 "IO" []).cleanups = 0 :=
  ⟨C8_amended.1 goodEnv 1 0 false 5 "IO" [Input.input Event.finished]
      (App.setupD goodEnv 1 0 false 5 "IO")
      (App.stepOkD (App.setupD goodEnv 1 0 false 5 "IO") (Input.input Event.finished))
      (by decide) (by decide),
   C8_amended.2.1 goodEnv 1 0 false 5 "IO" [Input.input Event.error]
      (App.setupD goodEnv 1 0 false 5 "IO")
      (App.setupD goodEnv 1 0 false 5 "IO")
      (by decide) (by decide),
   C8_amended.2.2 { mysql_version := "8.0.1", accessible_tables := required_tables }
      1 0 false 5 "IO" [] (by decide)⟩

/-- C7: counterexample.  The claim says that in the headless scenario
(default view IO, budget 3) every collector other than the IO collector is
collected once during `Setup`'s all-collector pass.  The users/processlist
collector is never collected at all — `Setup`'s pass (`ResetDBStatistics`,
`app.go:138-145`) omits it — so its collect count at the end of the run is
0, not 1. -/
theorem C7_counterexample :
    (runOutcomeApp ((App.setupD goodEnv 1 3 true 5 "IO").runFrom
        (List.replicate 3 Input.tick))).map
      (fun aF => countOf aF.trace (PsAction.collect CollectorId.users)) = some 0 ∧
    (runOutcomeApp ((App.setupD goodEnv 1 3 true 5 "IO").runFrom
        (List.replicate 3 Input.tick))).map
      (fun aF => countOf aF.trace (PsAction.collect CollectorId.users)) ≠ some 1 := by
  constructor
  · decide
  · decide

/-- C7 (amended): a per-tick `Collect()` invokes `Collect` on exactly the
collector backing the active view and leaves every collector's state
unchanged; in the headless scenario (default view IO, budget 3, three
ticks) the IO collector is collected once during `Setup` and three times by
the loop, the four other performance-schema collectors exactly once (during
`Setup`), and the users collector never, after which the run reports
finished. -/
theorem C7_amended :
    (∀ (a : App) (c : CollectorId),
      (c = activeCollectorId a.view →
        countOf (a.Collect).trace (PsAction.collect c) =
          countOf a.trace (PsAction.collect c) + 1) ∧
      (c ≠ activeCollectorId a.view →
        countOf (a.Collect).trace (PsAction.collect c) =
          countOf a.trace (PsAction.collect c))) ∧
    (∀ a : App, (a.Collect).fsbi = a.fsbi ∧ (a.Collect).tiwsbt = a.tiwsbt ∧
      (a.Collect).tlwsbt = a.tlwsbt ∧ (a.Collect).ewsgben = a.ewsgben ∧
      (a.Collect).essgben = a.essgben ∧ (a.Collect).users = a.users ∧
      (a.Collect).tiwsbt_wants_latency = a.tiwsbt_wants_latency) ∧
    (runOutcomeApp ((App.setupD goodEnv 1 3 true 5 "IO").runFrom
        (List.replicate 3 Input.tick))).map
      (fun aF =>
        (aF.finished,
         [countOf aF.trace (PsAction.collect CollectorId.fsbi),
          countOf aF.trace (PsAction.collect CollectorId.tiwsbt),
          countOf aF.trace (PsAction.collect CollectorId.tlwsbt),
          countOf aF.trace (PsAction.collect CollectorId.essgben),
          countOf aF.trace (PsAction.collect CollectorId.ewsgben),
          countOf aF.trace (PsAction.collect CollectorId.users)])) =
      some (true, [4, 1, 1, 1, 1, 0]) := by
  refine ⟨?_, ?_, by decide⟩
  · intro a c
    constructor
    · intro hc
      simp [App.Collect, countOf_append, countOf, hc]
    · intro hc
      simp [App.Collect, countOf_append, countOf, Ne.symm hc]
  · intro a
    exact ⟨rfl, rfl, rfl, rfl, rfl, rfl, rfl⟩

/-- C7 witness: the per-tick dispatch conjuncts of `C7_amended` at a
concrete post-`Setup` state with active view IO: a tick collects `fsbi`
exactly once and leaves the `users` collect count unchanged. -/
theorem C7_witness :
    countOf ((App.setupD goodEnv 1 3 true 5 "IO").Collect).trace
        (PsAction.collect CollectorId.fsbi) =
      countOf (App.setupD goodEnv 1 3 true 5 "IO").trace
        (PsAction.collect CollectorId.fsbi) + 1 ∧
    countOf ((App.setupD goodEnv 1 3 true 5 "IO").Collect).trace
        (PsAction.collect CollectorId.users) =
      countOf (App.setupD goodEnv 1 3 true 5 "IO").trace
        (PsAction.collect CollectorId.users) :=
  ⟨(C7_amended.1 (App.setupD goodEnv 1 3 true 5 "IO") CollectorId.fsbi).1 (by decide),
   (C7_amended.1 (App.setupD goodEnv 1 3 true 5 "IO") CollectorId.users).2 (by decide)⟩

/-- One tick iteration in headless mode with a positive budget: collect the
active collector, display, and decrement the budget, finishing when it
reaches zero. -/
theorem tick_step (a : App) (hh : a.help = false) (hs : a.stdout = true)
    (hk : 0 < a.count) :
    a.runStep Input.tick = StepResult.ok (
      if a.count - 1 = 0 then
        { a with
          trace := a.trace ++ [PsAction.collect (activeCollectorId a.view), PsAction.display],
          count := a.count - 1,
          finished := true }
      else
        { a with
          trace := a.trace ++ [PsAction.collect (activeCollectorId a.view), PsAction.display],
          count := a.count - 1 }) := by
  simp only [App.runStep, App.Collect, App.Display, App.budgetHook, hh, hs]
  split <;> split <;> simp_all

/-- The budget hook decrements the counter whenever the state is in stdout
mode with a positive budget, whichever branch finishes. -/
theorem budgetHook_count_stdout (a : App) (hs : a.stdout = true) (hk : 0 < a.count) :
    (a.budgetHook).count = a.count - 1 := by
  unfold App.budgetHook
  rw [if_pos ⟨hs, hk⟩]
  dsimp only
  split <;> rfl

/-- C3: counterexample.  The claim says that with run budget K = 1 in
headless mode the loop performs exactly one collect-display cycle
regardless of what other events are delivered.  Delivering a resize event
before the first tick consumes the whole budget (`app.go:343-349`
decrements after *every* iteration, not only after ticks): the run
terminates finished having appended only the resize's display — zero
collect-display cycles. -/
theorem C3_counterexample :
    (runOutcomeApp ((App.setupD goodEnv 1 1 true 5 "IO").runFrom
        [Input.input (Event.resizeScreen 80 24), Input.tick])).map
      (fun aF => (aF.finished, aF.trace)) =
      some (true, (App.setupD goodEnv 1 1 true 5 "IO").trace ++ [PsAction.display]) := by
  decide

/-- C3 (amended): in headless mode every loop iteration — tick or not —
decrements a positive run budget; consequently, when the K-budget run
receives only timer ticks, it performs exactly K collect-display cycles
against the active view's collector and terminates with the finished flag
set and the budget at zero. -/
theorem C3_budget :
    (∀ (a : App) (k n : Nat), a.stdout = true → a.finished = false → a.help = false →
      a.count = (k : Int) → 0 < k → k ≤ n →
      ∃ aF : App,
        a.runFrom (List.replicate n Input.tick) = RunOutcome.normal aF ∧
        aF.finished = true ∧ aF.count = 0 ∧
        aF.trace = a.trace ++ tickTrace a.view k) ∧
    (∀ (a a1 : App) (inp : Input), a.stdout = true → 0 < a.count →
      a.runStep inp = StepResult.ok a1 → a1.count = a.count - 1) := by
  constructor
  · intro a k n
    induction k generalizing a n with
    | zero =>
      intro _ _ _ _ hk _
      exact absurd hk (by omega)
    | succ j ih =>
      intro hs hf hh hc _ hn
      obtain ⟨m, rfl⟩ : ∃ m, n = m + 1 := ⟨n - 1, by omega⟩
      have hkpos : 0 < a.count := by omega
      rw [List.replicate_succ]
      simp only [App.runFrom, hf, Bool.false_eq_true, if_false]
      rw [tick_step a hh hs hkpos]
      by_cases hz : a.count - 1 = 0
      · rw [if_pos hz]
        have hj0 : j = 0 := by omega
        subst hj0
        refine ⟨_, runFrom_finished _ _ rfl, rfl, hz, ?_⟩
        simp [tickTrace]
      · rw [if_neg hz]
        obtain ⟨aF, hrun, hfin, hcnt, htr⟩ :=
          ih { a with
                trace := a.trace ++
                  [PsAction.collect (activeCollectorId a.view), PsAction.display],
                count := a.count - 1 }
            m hs hf hh (by dsimp only; omega) (by omega) (by omega)
        refine ⟨aF, hrun, hfin, hcnt, ?_⟩
        rw [htr]
        simp [tickTrace, List.append_assoc]
  · intro a a1 inp hs hk h
    cases inp with
    | signal =>
      simp only [App.runStep] at h
      injection h with h
      subst h
      exact budgetHook_count_stdout _ hs hk
    | tick =>
      simp only [App.runStep] at h
      injection h with h
      subst h
      rw [budgetHook_count_stdout _ (by simp [hs]) (by simpa using hk)]
      simp
    | input e =>
      simp only [App.runStep] at h
      cases e <;> simp only [App.handleEvent] at h
      case finished =>
        injection h with h
        subst h
        exact budgetHook_count_stdout _ hs hk
      case viewNext =>
        injection h with h
        subst h
        rw [budgetHook_count_stdout _ (by simp [hs]) (by simpa using hk)]
        simp
      case viewPrev =>
        injection h with h
        subst h
        rw [budgetHook_count_stdout _ (by simp [hs]) (by simpa using hk)]
        simp
      case decreasePollTime =>
        injection h with h
        subst h
        rw [budgetHook_count_stdout _ (by split <;> exact hs)
          (by split <;> exact hk)]
        split <;> rfl
      case increasePollTime =>
        injection h with h
        subst h
        exact budgetHook_count_stdout _ hs hk
      case help =>
        injection h with h
        subst h
        exact budgetHook_count_stdout _ hs hk
      case toggleWantRelative =>
        injection h with h
        subst h
        rw [budgetHook_count_stdout _ (by simp [hs]) (by simpa using hk)]
        simp
      case resetStatistics =>
        injection h with h
        subst h
        rw [budgetHook_count_stdout _ (by simp [hs]) (by simpa using hk)]
        simp
      case resizeScreen w ht =>
        injection h with h
        subst h
        rw [budgetHook_count_stdout _ (by simp [hs]) (by simpa using hk)]
        simp
      case error =>
        exact absurd h (by simp)

/-- C3 witness: `C3_budget` at a concrete headless state with budget 2 and
two ticks, and its per-iteration decrement at a concrete resize event. -/
theorem C3_witness :
    (∃ aF : App,
      (App.setupD goodEnv 1 2 true 5 "IO").runFrom (List.replicate 2 Input.tick) =
        RunOutcome.normal aF ∧
      aF.finished = true ∧ aF.count = 0 ∧
      aF.trace = (App.setupD goodEnv 1 2 true 5 "IO").trace ++
        tickTrace (App.setupD goodEnv 1 2 true 5 "IO").view 2) ∧
    (App.stepOkD (App.setupD goodEnv 1 2 true 5 "IO")
        (Input.input (Event.resizeScreen 80 24))).count =
      (App.setupD goodEnv 1 2 true 5 "IO").count - 1 :=
  ⟨C3_budget.1 (App.setupD goodEnv 1 2 true 5 "IO") 2 2 (by decide) (by decide)
      (by decide) (by decide) (by decide) (by decide),
   C3_budget.2 (App.setupD goodEnv 1 2 true 5 "IO")
      (App.stepOkD (App.setupD goodEnv 1 2 true 5 "IO")
        (Input.input (Event.resizeScreen 80 24)))
      (Input.input (Event.resizeScreen 80 24)) (by decide) (by decide) (by decide)⟩
